import Mathlib

/-!
# Shallow embedding of the weather web-sockets server

The repository has two revisions of the same server:

* `server.js` (embedded below as namespace `ServerA`): a fixed three-city
  registry (`cityCoordinates` literal), a change-gated emission policy
  (`hasWeatherChanged` gates both the cache overwrite and the room emission),
  and a `subscribe_city` handler with no registry check.
* `src/unnamed/part_000` (embedded as namespace `ServerB`): a dynamic registry
  starting empty, `add_city` / `delete_city` / `get_cities` handlers, a
  `subscribe_city` handler that rejects unknown cities, and an always-emit
  policy (`updateCityWeather` overwrites the cache and emits unconditionally
  on fetch success).

Network I/O (the Open-Meteo geocoding and forecast HTTP calls) is modelled by
oracle parameters: `Option GeoResult` for a geocode outcome and
`Option WeatherRecord` for a fetch outcome (`none` covers non-2xx responses,
exceptions and missing `temperature_2m`, all of which the code collapses to
`null`). The wall clock (`new Date().toLocaleTimeString()`) is an oracle
`String` parameter. JS objects with string keys are association lists in key
insertion order; socket.io room membership is the list of
(connection, room) pairs.
-/

/-- Socket (connection) identifier. -/
abbrev ConnId := Nat

/-- Coordinates stored in the `cityCoordinates` registry. The decimal
degrees of the source are stored scaled by 10^4 (London's latitude 51.5074
is stored as 515074): coordinates are only stored and passed through, never
computed with, so this value-preserving encoding keeps concrete states
kernel-evaluable. -/
structure Coords where
  latitude : Int
  longitude : Int
deriving DecidableEq, Repr

/-- A successful geocoding response, already normalized by `geocodeCity`
(first result; `country` and `admin1` default to the empty string). -/
structure GeoResult where
  name : String
  latitude : Int
  longitude : Int
  country : String
  admin1 : String
deriving DecidableEq, Repr

/-- The record built by `fetchWeatherData` from a successful forecast
response: `temp`, `feelsLike`, `windSpeed` are `Math.round`ed to integers,
`precipitation` is rounded to one decimal (a rational with denominator
dividing 10), `windDirection`, `humidity`, `weatherCode` pass through, and
`timestamp` is the formatted local time at construction. -/
structure WeatherRecord where
  city : String
  temp : Int
  feelsLike : Int
  precipitation : Rat
  windSpeed : Int
  windDirection : Int
  humidity : Int
  weatherCode : Int
  timestamp : String
deriving DecidableEq, Repr

/-- The `temp` field of an emitted `temperature_update` payload: a number on
fetch success, or the literal `'N/A'` marker on the fallback path. -/
inductive TempVal where
  | num (t : Int)
  | notAvailable
deriving DecidableEq, Repr

/-- Payload of a `temperature_update` emission. The fallback payload sent
when the immediate fetch fails carries only `city`, `temp : 'N/A'` and
`timestamp`; the remaining fields are absent (JS `undefined`), modelled as
`none`. `temp` is an `Option` so that "the temperature field is defined" is
a real statement about the code. -/
structure UpdatePayload where
  city : String
  temp : Option TempVal
  feelsLike : Option Int
  precipitation : Option Rat
  windSpeed : Option Int
  windDirection : Option Int
  humidity : Option Int
  weatherCode : Option Int
  timestamp : String
deriving DecidableEq, Repr

/-- The full payload emitted for a successfully fetched record: every field
of the record, with `temp` numeric. -/
def payloadOfRecord (r : WeatherRecord) : UpdatePayload :=
  { city := r.city
    temp := some (TempVal.num r.temp)
    feelsLike := some r.feelsLike
    precipitation := some r.precipitation
    windSpeed := some r.windSpeed
    windDirection := some r.windDirection
    humidity := some r.humidity
    weatherCode := some r.weatherCode
    timestamp := r.timestamp }

/-- The fallback payload `{ city, temp: 'N/A', timestamp }` sent when the
immediate fetch in `subscribe_city` fails. -/
def degradedPayload (city now : String) : UpdatePayload :=
  { city := city
    temp := some TempVal.notAvailable
    feelsLike := none
    precipitation := none
    windSpeed := none
    windDirection := none
    humidity := none
    weatherCode := none
    timestamp := now }

/-- The distinct user-visible error messages emitted by the handlers, one
constructor per message template in the source. -/
inductive ErrorKind where
  /-- `'City name is required and must be a valid string'` -/
  | invalidCityName
  /-- `'Maximum 3 cities allowed. Please delete a city first.'` -/
  | capacityExceeded
  /-- `'City "X" already exists. ...'` (X = the colliding registry key) -/
  | duplicateTopic (existing : String)
  /-- `'Could not find coordinates for "X". ...'` -/
  | resolutionFailed (name : String)
  /-- `'City "X" not found. Please select a valid city from the list.'` -/
  | unknownTopic (name : String)
  /-- `'City "X" not found'` (delete of an absent city) -/
  | notFound (name : String)
deriving DecidableEq, Repr

/-- Outbound socket.io events appearing in the source. -/
inductive Event where
  | temperatureUpdate (p : UpdatePayload)
  | citiesList (names : List String)
  | cityAdded (name : String)
  | cityDeleted (name : String)
  | cityDeletedActive (name : String)
  | geocoding (name : String)
  | errorEvent (k : ErrorKind)
deriving DecidableEq, Repr

/-- Where an event is sent: one socket (`socket.emit`), one room
(`io.to(room).emit`), or every connection (`io.emit`). -/
inductive Target where
  | toConn (c : ConnId)
  | toRoom (room : String)
  | broadcast
deriving DecidableEq, Repr

/-- One emitted event with its recipient set. -/
abbrev Emission := Target × Event

/-- JS object property read `m[k]` on a string-keyed object. -/
def lookupKey {α : Type} : List (String × α) → String → Option α
  | [], _ => none
  | (k1, v) :: rest, k => if k1 = k then some v else lookupKey rest k

/-- JS assignment `m[k] = v`: updates in place if the key exists (keeping
its position in insertion order), otherwise appends. -/
def setKey {α : Type} : List (String × α) → String → α → List (String × α)
  | [], k, v => [(k, v)]
  | (k1, v1) :: rest, k, v =>
    if k1 = k then (k1, v) :: rest else (k1, v1) :: setKey rest k v

/-- JS `delete m[k]`. -/
def eraseKey {α : Type} : List (String × α) → String → List (String × α)
  | [], _ => []
  | (k1, v1) :: rest, k => if k1 = k then rest else (k1, v1) :: eraseKey rest k

/-- JS `Object.keys(m)` (insertion order). -/
def keysOf {α : Type} (m : List (String × α)) : List String :=
  m.map Prod.fst

/-- Members of a socket.io room: sockets whose (connection, room) pair is in
the membership list. -/
def roomMembers (inRoom : List (ConnId × String)) (city : String) : List ConnId :=
  (inRoom.filter (fun p => p.2 == city)).map Prod.fst

/-- Drop leading whitespace characters from a character list. -/
def dropLeadingWhitespace : List Char → List Char
  | [] => []
  | c :: rest => if c.isWhitespace then dropLeadingWhitespace rest else c :: rest

/-- JS `String.prototype.trim()`: strips leading and trailing whitespace.
Modelled over the character list so that proofs can evaluate it on concrete
strings. -/
def jsTrim (s : String) : String :=
  ⟨(dropLeadingWhitespace (dropLeadingWhitespace s.data).reverse).reverse⟩

/-- JS `String.prototype.toLowerCase()` (the ASCII mapping suffices for the
city names involved). -/
def jsToLower (s : String) : String :=
  ⟨s.data.map Char.toLower⟩

/-- `hasWeatherChanged(oldData, newData)` (identical in both revisions):
true when there is no prior record, or when one of the seven compared fields
differs. `timestamp` and `city` are not compared. -/
def hasWeatherChanged (oldData : Option WeatherRecord) (newData : WeatherRecord) : Bool :=
  match oldData with
  | none => true
  | some o =>
    decide (o.temp ≠ newData.temp) ||
    decide (o.feelsLike ≠ newData.feelsLike) ||
    decide (o.precipitation ≠ newData.precipitation) ||
    decide (o.windSpeed ≠ newData.windSpeed) ||
    decide (o.windDirection ≠ newData.windDirection) ||
    decide (o.humidity ≠ newData.humidity) ||
    decide (o.weatherCode ≠ newData.weatherCode)

/-- The seven fields compared by `hasWeatherChanged` all agree. -/
def sameWeatherFields (a b : WeatherRecord) : Prop :=
  a.temp = b.temp ∧ a.feelsLike = b.feelsLike ∧ a.precipitation = b.precipitation ∧
  a.windSpeed = b.windSpeed ∧ a.windDirection = b.windDirection ∧
  a.humidity = b.humidity ∧ a.weatherCode = b.weatherCode

instance (a b : WeatherRecord) : Decidable (sameWeatherFields a b) := by
  unfold sameWeatherFields; infer_instance

/-- Top-level effects of the server script, in source order. An immediate
fetch-all round at startup would appear as `runPollRoundNow`. -/
inductive TopEffect where
  | serveStatic
  | onConnection
  | runPollRoundNow
  | schedulePollEvery (intervalMs : Nat)
  | listen
deriving DecidableEq, Repr

/-- Top level of `server.js`: static middleware, connection handler,
`setInterval(..., 300000)`, `server.listen`. -/
def topLevelEffectsA : List TopEffect :=
  [TopEffect.serveStatic, TopEffect.onConnection,
   TopEffect.schedulePollEvery 300000, TopEffect.listen]

/-- Top level of `src/unnamed/part_000`: static middleware, connection
handler, `setInterval(..., 30000)`, `server.listen`. -/
def topLevelEffectsB : List TopEffect :=
  [TopEffect.serveStatic, TopEffect.onConnection,
   TopEffect.schedulePollEvery 30000, TopEffect.listen]

/-- JS `setInterval` semantics: the callback registered with interval `i`
fires at times `i, 2*i, 3*i, ...` after registration — never at time 0. -/
def fireTimes (intervalMs : Nat) (n : Nat) : Nat :=
  (n + 1) * intervalMs

namespace ServerA

/-!
## `server.js` — fixed registry, change-gated emission
-/

/-- The hardcoded `cityCoordinates` literal of `server.js`. -/
def cityCoordinates : List (String × Coords) :=
  [("London", ⟨515074, -1278⟩),
   ("New York", ⟨407128, -740060⟩),
   ("Tokyo", ⟨356762, 1396503⟩)]

/-- Mutable state of `server.js`: the `weatherData` cache and the socket.io
room membership. The registry is the constant above. -/
structure State where
  weatherData : List (String × WeatherRecord)
  inRoom : List (ConnId × String)
deriving DecidableEq, Repr

/-- `fetchWeatherData(city)`: returns `null` when the city has no registered
coordinates; otherwise the HTTP outcome (`net` oracle) decides — `none` for
a transport error, non-2xx status or missing temperature field, `some r` for
a successful, normalized record. -/
def fetchWeatherData (city : String) (net : Option WeatherRecord) : Option WeatherRecord :=
  match lookupKey cityCoordinates city with
  | none => none
  | some _ => net

/-- The body of `updateCityWeather` after the awaited fetch has completed:
on fetch success, overwrites the cache and emits to the city room only when
`hasWeatherChanged` is true against the cache read at completion time. The
registry is not consulted at this point. -/
def updateCityWeatherResume (s : State) (city : String)
    (weatherUpdate : Option WeatherRecord) : State × List Emission :=
  match weatherUpdate with
  | none => (s, [])
  | some w =>
    if hasWeatherChanged (lookupKey s.weatherData city) w then
      ({ s with weatherData := setKey s.weatherData city w },
       [(Target.toRoom city, Event.temperatureUpdate (payloadOfRecord w))])
    else (s, [])

/-- `updateCityWeather(city)` run without interleaving: the fetch starts and
completes against the same state. -/
def updateCityWeather (s : State) (city : String)
    (net : Option WeatherRecord) : State × List Emission :=
  updateCityWeatherResume s city (fetchWeatherData city net)

/-- The `subscribe_city` handler of `server.js`. No registry check: the
socket leaves every room other than its own id room, joins `city`, then the
immediate fetch either overwrites the cache and sends the record to this
socket only, or sends the degraded `'N/A'` payload. -/
def subscribeCity (s : State) (conn : ConnId) (city : String)
    (net : Option WeatherRecord) (now : String) : State × List Emission :=
  let s1 : State :=
    { s with inRoom := (s.inRoom.filter (fun p => p.1 != conn)) ++ [(conn, city)] }
  match fetchWeatherData city net with
  | some w =>
    ({ s1 with weatherData := setKey s1.weatherData city w },
     [(Target.toConn conn, Event.temperatureUpdate (payloadOfRecord w))])
  | none =>
    (s1, [(Target.toConn conn, Event.temperatureUpdate (degradedPayload city now))])

/-- `getSubscribedCities()`: registered cities whose room is non-empty. -/
def getSubscribedCities (s : State) : List String :=
  (keysOf cityCoordinates).filter (fun c => !(roomMembers s.inRoom c).isEmpty)

/-- One tick of the `setInterval` poller: visits the subscribed cities in
registry order, running `updateCityWeather` for each (`net` gives each
city's fetch outcome). The 500 ms pacing delay does not change state. -/
def pollRound (s : State) (net : String → Option WeatherRecord) : State × List Emission :=
  (getSubscribedCities s).foldl
    (fun acc city =>
      let r := updateCityWeather acc.1 city (net city)
      (r.1, acc.2 ++ r.2))
    (s, [])

end ServerA

namespace ServerB

/-!
## `src/unnamed/part_000` — dynamic registry, always-emit
-/

/-- Mutable state: the dynamic `cityCoordinates` registry (starts empty),
the `weatherData` cache, and socket.io room membership. -/
structure State where
  cityCoordinates : List (String × Coords)
  weatherData : List (String × WeatherRecord)
  inRoom : List (ConnId × String)
deriving DecidableEq, Repr

/-- The initial state: `cityCoordinates = {}`, `weatherData = {}`. -/
def initialState : State := ⟨[], [], []⟩

/-- `fetchWeatherData(city)` of the dynamic revision: the registry is
read from the state. -/
def fetchWeatherData (s : State) (city : String)
    (net : Option WeatherRecord) : Option WeatherRecord :=
  match lookupKey s.cityCoordinates city with
  | none => none
  | some _ => net

/-- The body of `updateCityWeather` after the awaited fetch completed: on
success, always overwrites the cache and always emits to the city room
(comment in source: "Always sends update (even if values are the same) to
trigger fade-in animations"). The registry is not re-checked here. -/
def updateCityWeatherResume (s : State) (city : String)
    (weatherUpdate : Option WeatherRecord) : State × List Emission :=
  match weatherUpdate with
  | none => (s, [])
  | some w =>
    ({ s with weatherData := setKey s.weatherData city w },
     [(Target.toRoom city, Event.temperatureUpdate (payloadOfRecord w))])

/-- `updateCityWeather(city)` run without interleaving. -/
def updateCityWeather (s : State) (city : String)
    (net : Option WeatherRecord) : State × List Emission :=
  updateCityWeatherResume s city (fetchWeatherData s city net)

/-- The `subscribe_city` handler: rejects a falsy (empty) name or a name not
in the registry with an error event and no state change; otherwise switches
the socket's room to `city` and serves an immediate snapshot (full record on
fetch success, degraded `'N/A'` payload on failure). -/
def subscribeCity (s : State) (conn : ConnId) (city : String)
    (net : Option WeatherRecord) (now : String) : State × List Emission :=
  if city == "" || (lookupKey s.cityCoordinates city).isNone then
    (s, [(Target.toConn conn, Event.errorEvent (ErrorKind.unknownTopic city))])
  else
    let s1 : State :=
      { s with inRoom := (s.inRoom.filter (fun p => p.1 != conn)) ++ [(conn, city)] }
    match fetchWeatherData s1 city net with
    | some w =>
      ({ s1 with weatherData := setKey s1.weatherData city w },
       [(Target.toConn conn, Event.temperatureUpdate (payloadOfRecord w))])
    | none =>
      (s1, [(Target.toConn conn, Event.temperatureUpdate (degradedPayload city now))])

/-- The `add_city` handler. Checks, in source order: input validation
(empty after trim), the three-city capacity limit, a case-insensitive
duplicate check on the trimmed input, geocoding (oracle `geo`), and an exact
re-check of the geocoded canonical name; then inserts and broadcasts. -/
def addCity (s : State) (conn : ConnId) (name : String)
    (geo : Option GeoResult) : State × List Emission :=
  if jsTrim name == "" then
    (s, [(Target.toConn conn, Event.errorEvent ErrorKind.invalidCityName)])
  else
    let trimmedName := jsTrim name
    if 3 ≤ (keysOf s.cityCoordinates).length then
      (s, [(Target.toConn conn, Event.errorEvent ErrorKind.capacityExceeded)])
    else
      match (keysOf s.cityCoordinates).find?
          (fun city => jsToLower city == jsToLower trimmedName) with
      | some existingCity =>
        (s, [(Target.toConn conn, Event.errorEvent (ErrorKind.duplicateTopic existingCity))])
      | none =>
        match geo with
        | none =>
          (s, [(Target.toConn conn, Event.geocoding trimmedName),
               (Target.toConn conn, Event.errorEvent (ErrorKind.resolutionFailed trimmedName))])
        | some geocodeResult =>
          let finalCityName := geocodeResult.name
          if (lookupKey s.cityCoordinates finalCityName).isSome then
            (s, [(Target.toConn conn, Event.geocoding trimmedName),
                 (Target.toConn conn, Event.errorEvent (ErrorKind.duplicateTopic finalCityName))])
          else
            let newCoords : Coords := ⟨geocodeResult.latitude, geocodeResult.longitude⟩
            let s1 : State :=
              { s with cityCoordinates := setKey s.cityCoordinates finalCityName newCoords }
            (s1, [(Target.toConn conn, Event.geocoding trimmedName),
                  (Target.broadcast, Event.cityAdded finalCityName),
                  (Target.broadcast, Event.citiesList (keysOf s1.cityCoordinates))])

/-- The `delete_city` handler: `NotFound` error if absent; otherwise
notifies active subscribers (if the room is non-empty), deletes the registry
entry and the cached snapshot, and broadcasts. Room membership itself is not
touched. -/
def deleteCity (s : State) (conn : ConnId) (cityName : String) : State × List Emission :=
  if (lookupKey s.cityCoordinates cityName).isNone then
    (s, [(Target.toConn conn, Event.errorEvent (ErrorKind.notFound cityName))])
  else
    let notifyActive : List Emission :=
      if (roomMembers s.inRoom cityName).isEmpty then []
      else [(Target.toRoom cityName, Event.cityDeletedActive cityName)]
    let s1 : State :=
      { s with cityCoordinates := eraseKey s.cityCoordinates cityName,
               weatherData := eraseKey s.weatherData cityName }
    (s1, notifyActive ++
      [(Target.broadcast, Event.cityDeleted cityName),
       (Target.broadcast, Event.citiesList (keysOf s1.cityCoordinates))])

/-- `getSubscribedCities()`: registered cities whose room is non-empty. -/
def getSubscribedCities (s : State) : List String :=
  (keysOf s.cityCoordinates).filter (fun c => !(roomMembers s.inRoom c).isEmpty)

/-- One tick of the `setInterval` poller. -/
def pollRound (s : State) (net : String → Option WeatherRecord) : State × List Emission :=
  (getSubscribedCities s).foldl
    (fun acc city =>
      let r := updateCityWeather acc.1 city (net city)
      (r.1, acc.2 ++ r.2))
    (s, [])

/-- A registry-mutating request: an `add_city` (with its geocode outcome) or
a `delete_city`. -/
inductive RegOp where
  | add (conn : ConnId) (name : String) (geo : Option GeoResult)
  | remove (conn : ConnId) (name : String)
deriving DecidableEq, Repr

/-- Process one registry request. -/
def applyRegOp (s : State) (op : RegOp) : State × List Emission :=
  match op with
  | RegOp.add conn name geo => addCity s conn name geo
  | RegOp.remove conn name => deleteCity s conn name

/-- Process a sequence of registry requests, keeping the final state. -/
def applyRegOps (s : State) (ops : List RegOp) : State :=
  ops.foldl (fun st op => (applyRegOp st op).1) s

end ServerB

/-!
## Basic lemmas about the JS-object and room primitives
-/

theorem lookupKey_setKey_self {α : Type} (m : List (String × α)) (k : String) (v : α) :
    lookupKey (setKey m k v) k = some v := by
  induction m with
  | nil => simp [setKey, lookupKey]
  | cons p rest ih =>
    by_cases h : p.1 = k
    · simp [setKey, lookupKey, h]
    · simp [setKey, lookupKey, h, ih]

theorem lookupKey_setKey_ne {α : Type} (m : List (String × α)) (k k1 : String) (v : α)
    (h : k1 ≠ k) : lookupKey (setKey m k v) k1 = lookupKey m k1 := by
  have hkk1 : ¬ k = k1 := fun hc => h hc.symm
  induction m with
  | nil => simp [setKey, lookupKey, hkk1]
  | cons p rest ih =>
    obtain ⟨ka, va⟩ := p
    by_cases hp : ka = k
    · subst hp
      simp [setKey, lookupKey, hkk1]
    · by_cases hk1 : ka = k1
      · simp [setKey, lookupKey, hp, hk1, h]
      · simp [setKey, lookupKey, hp, hk1, ih]

theorem length_setKey_le {α : Type} (m : List (String × α)) (k : String) (v : α) :
    (setKey m k v).length ≤ m.length + 1 := by
  induction m with
  | nil => simp [setKey]
  | cons p rest ih =>
    obtain ⟨ka, va⟩ := p
    by_cases h : ka = k
    · simp [setKey, h]
    · simp only [setKey, if_neg h, List.length_cons]
      omega

theorem length_eraseKey_le {α : Type} (m : List (String × α)) (k : String) :
    (eraseKey m k).length ≤ m.length := by
  induction m with
  | nil => simp [eraseKey]
  | cons p rest ih =>
    obtain ⟨ka, va⟩ := p
    by_cases h : ka = k
    · simp only [eraseKey, if_pos h, List.length_cons]
      omega
    · simp only [eraseKey, if_neg h, List.length_cons]
      omega

theorem mem_roomMembers {l : List (ConnId × String)} {c : ConnId} {t : String} :
    c ∈ roomMembers l t ↔ (c, t) ∈ l := by
  constructor
  · intro h
    rcases List.mem_map.mp h with ⟨p, hp, hfst⟩
    rcases List.mem_filter.mp hp with ⟨hmem, hsnd⟩
    have ht : p.2 = t := by simpa using hsnd
    have : p = (c, t) := by
      cases p; simp_all
    simpa [this] using hmem
  · intro h
    refine List.mem_map.mpr ⟨(c, t), List.mem_filter.mpr ⟨h, by simp⟩, rfl⟩

theorem filter_idem {α : Type} (p : α → Bool) (l : List α) :
    (l.filter p).filter p = l.filter p := by
  induction l with
  | nil => rfl
  | cons x xs ih =>
    by_cases h : p x
    · simp [List.filter_cons, h, ih]
    · simp [List.filter_cons, h, ih]

theorem hasWeatherChanged_eq_false_iff (a b : WeatherRecord) :
    hasWeatherChanged (some a) b = false ↔ sameWeatherFields a b := by
  simp [hasWeatherChanged, sameWeatherFields]
  tauto

theorem sameWeatherFields_trans {a b c : WeatherRecord}
    (h1 : sameWeatherFields a b) (h2 : sameWeatherFields b c) : sameWeatherFields a c := by
  obtain ⟨e1, e2, e3, e4, e5, e6, e7⟩ := h1
  obtain ⟨f1, f2, f3, f4, f5, f6, f7⟩ := h2
  exact ⟨e1.trans f1, e2.trans f2, e3.trans f3, e4.trans f4,
         e5.trans f5, e6.trans f6, e7.trans f7⟩

theorem sameWeatherFields_symm {a b : WeatherRecord}
    (h : sameWeatherFields a b) : sameWeatherFields b a := by
  obtain ⟨e1, e2, e3, e4, e5, e6, e7⟩ := h
  exact ⟨e1.symm, e2.symm, e3.symm, e4.symm, e5.symm, e6.symm, e7.symm⟩

/-!
## Concrete sample data used by counterexamples and witnesses
-/

/-- A normalized record for London at 10:00:00. -/
def recA : WeatherRecord := ⟨"London", 20, 19, 0, 10, 180, 50, 3, "10:00:00"⟩

/-- Same seven compared fields as `recA`, later timestamp. -/
def recB : WeatherRecord := ⟨"London", 20, 19, 0, 10, 180, 50, 3, "10:05:00"⟩

/-- Like `recB` but with `temp` changed from 20 to 21. -/
def recC : WeatherRecord := ⟨"London", 21, 19, 0, 10, 180, 50, 3, "10:10:00"⟩

/-- London's coordinates as in the source (scaled by 10^4). -/
def coordsLondon : Coords := ⟨515074, -1278⟩

/-- A dynamic-revision state with London registered and cached, and
connection 1 subscribed to London. -/
def c3Start : ServerB.State :=
  ⟨[("London", coordsLondon)], [("London", recA)], [(1, "London")]⟩

/-!
## Claims
-/

/-- C1, counterexample. In the change-gated revision (`server.js`), a
successful fetch whose seven compared fields all equal the prior snapshot
does NOT overwrite the cache: with `recA` cached for London and `recB` (same
fields, later timestamp) fetched, `updateCityWeather` leaves the cache
holding `recA`. This refutes "the cache entry is overwritten ... regardless
of whether any compared field differs and regardless of which emission
policy is in effect". -/
theorem C1_counterexample :
    recB ≠ recA ∧
    hasWeatherChanged (some recA) recB = false ∧
    (ServerA.updateCityWeather ⟨[("London", recA)], [(1, "London")]⟩ "London"
        (some recB)).1.weatherData = [("London", recA)] := by
  decide

/-- C1, amended: in the always-emit revision every successful fetch — the
poll path and the subscribe path alike — overwrites the cache entry; in the
change-gated revision the subscribe-path fetch always overwrites, but the
poll-path `updateCityWeather` overwrites only when `hasWeatherChanged` holds
(a compared field differs or there is no prior snapshot) and otherwise
leaves the state untouched. -/
theorem C1_cache_overwrite_per_policy
    (sB : ServerB.State) (sA : ServerA.State) (conn : ConnId) (city : String)
    (w : WeatherRecord) (now : String)
    (hB : (lookupKey sB.cityCoordinates city).isSome = true)
    (hA : (lookupKey ServerA.cityCoordinates city).isSome = true) :
    lookupKey (ServerB.updateCityWeather sB city (some w)).1.weatherData city = some w ∧
    (city ≠ "" →
      lookupKey (ServerB.subscribeCity sB conn city (some w) now).1.weatherData city = some w) ∧
    lookupKey (ServerA.subscribeCity sA conn city (some w) now).1.weatherData city = some w ∧
    (hasWeatherChanged (lookupKey sA.weatherData city) w = true →
      lookupKey (ServerA.updateCityWeather sA city (some w)).1.weatherData city = some w) ∧
    (hasWeatherChanged (lookupKey sA.weatherData city) w = false →
      (ServerA.updateCityWeather sA city (some w)).1 = sA) := by
  obtain ⟨cB, hcB⟩ := Option.isSome_iff_exists.mp hB
  obtain ⟨cA, hcA⟩ := Option.isSome_iff_exists.mp hA
  refine ⟨?_, ?_, ?_, ?_, ?_⟩
  · simp [ServerB.updateCityWeather, ServerB.fetchWeatherData, ServerB.updateCityWeatherResume,
      hcB, lookupKey_setKey_self]
  · intro hne
    simp [ServerB.subscribeCity, ServerB.fetchWeatherData, hcB, hne, lookupKey_setKey_self]
  · simp [ServerA.subscribeCity, ServerA.fetchWeatherData, hcA, lookupKey_setKey_self]
  · intro hch
    simp [ServerA.updateCityWeather, ServerA.fetchWeatherData, ServerA.updateCityWeatherResume,
      hcA, hch, lookupKey_setKey_self]
  · intro hch
    simp [ServerA.updateCityWeather, ServerA.fetchWeatherData, ServerA.updateCityWeatherResume,
      hcA, hch]

/-- Witness for `C1_cache_overwrite_per_policy` at a concrete state. -/
theorem C1_cache_overwrite_per_policy_witness :
    lookupKey (ServerB.updateCityWeather c3Start "London" (some recB)).1.weatherData "London"
      = some recB ∧
    ("London" ≠ "" →
      lookupKey (ServerB.subscribeCity c3Start 1 "London" (some recB)
        "10:05:00").1.weatherData "London" = some recB) ∧
    lookupKey (ServerA.subscribeCity ⟨[("London", recA)], []⟩ 1 "London" (some recB)
        "10:05:00").1.weatherData "London" = some recB ∧
    (hasWeatherChanged (lookupKey ([("London", recA)] : List (String × WeatherRecord)) "London")
        recB = true →
      lookupKey (ServerA.updateCityWeather ⟨[("London", recA)], []⟩ "London"
          (some recB)).1.weatherData "London" = some recB) ∧
    (hasWeatherChanged (lookupKey ([("London", recA)] : List (String × WeatherRecord)) "London")
        recB = false →
      (ServerA.updateCityWeather ⟨[("London", recA)], []⟩ "London" (some recB)).1
        = ⟨[("London", recA)], []⟩) :=
  C1_cache_overwrite_per_policy c3Start ⟨[("London", recA)], []⟩ 1 "London" recB "10:05:00"
    (by decide) (by decide)

/-- C2, counterexample. The top level of both revisions registers only the
interval timer (plus the static middleware, the connection handler and the
listen call): no fetch-all round runs at startup, and the timer first fires
one full interval after registration, not at time 0. -/
theorem C2_counterexample :
    TopEffect.runPollRoundNow ∉ topLevelEffectsA ∧
    TopEffect.runPollRoundNow ∉ topLevelEffectsB ∧
    fireTimes 300000 0 = 300000 ∧
    fireTimes 30000 0 = 30000 := by
  decide

/-- C2, amended: no fetch round runs at process startup; the first polling
round occurs only when the interval timer first fires, a full poll interval
(5 minutes in `server.js`, 30 seconds in the dynamic revision) after
startup, so the cache is first populated either by a subscribe's immediate
fetch or by that first tick. -/
theorem C2_no_startup_round (n : Nat) :
    TopEffect.runPollRoundNow ∉ topLevelEffectsA ∧
    TopEffect.runPollRoundNow ∉ topLevelEffectsB ∧
    300000 ≤ fireTimes 300000 n ∧
    30000 ≤ fireTimes 30000 n := by
  refine ⟨by decide, by decide, ?_, ?_⟩ <;>
    · simp only [fireTimes]
      omega

/-- C3: the claim is the intended behavior (spec §5/§9 require the guard),
but the code lacks it. With London registered, cached and subscribed, a
fetch for London starts (coordinates are present, so the HTTP request is
issued), then `delete_city` removes London from the registry and the cache;
when the in-flight fetch completes, the post-await body of
`updateCityWeather` writes the result back into `weatherData` without
re-checking the registry, recreating a cache entry for a topic that is no
longer registered — the cache-keys ⊆ registry invariant is violated. -/
theorem C3_late_fetch_resurrects_cache :
    (lookupKey c3Start.cityCoordinates "London").isSome = true ∧
    lookupKey (ServerB.deleteCity c3Start 2 "London").1.cityCoordinates "London" = none ∧
    lookupKey (ServerB.deleteCity c3Start 2 "London").1.weatherData "London" = none ∧
    lookupKey (ServerB.updateCityWeatherResume (ServerB.deleteCity c3Start 2 "London").1
        "London" (some recB)).1.weatherData "London" = some recB ∧
    lookupKey (ServerB.updateCityWeatherResume (ServerB.deleteCity c3Start 2 "London").1
        "London" (some recB)).1.cityCoordinates "London" = none := by
  decide

/-- C4, counterexample. In `server.js` the `subscribe_city` handler has no
registry check: subscribing to the unregistered name "Paris" adds the
connection to the "Paris" room and emits a degraded `'N/A'` snapshot — no
error event is emitted and the connection IS added to a subscriber set. -/
theorem C4_counterexample :
    lookupKey ServerA.cityCoordinates "Paris" = none ∧
    (1, "Paris") ∈ (ServerA.subscribeCity ⟨[], []⟩ 1 "Paris" (some recA) "09:00:00").1.inRoom ∧
    (ServerA.subscribeCity ⟨[], []⟩ 1 "Paris" (some recA) "09:00:00").2
      = [(Target.toConn 1, Event.temperatureUpdate (degradedPayload "Paris" "09:00:00"))] := by
  decide

/-- C4, amended: in the dynamic revision, subscribing to a name not in the
registry emits an unknown-topic error and changes nothing; in the fixed
revision (`server.js`) there is no check — the connection joins the
(nonexistent) topic's room and receives a degraded `'N/A'` snapshot instead
of an error. -/
theorem C4_unknown_topic_behavior
    (sB : ServerB.State) (sA : ServerA.State) (conn : ConnId) (city : String)
    (net : Option WeatherRecord) (now : String)
    (hB : lookupKey sB.cityCoordinates city = none)
    (hA : lookupKey ServerA.cityCoordinates city = none) :
    ServerB.subscribeCity sB conn city net now =
      (sB, [(Target.toConn conn, Event.errorEvent (ErrorKind.unknownTopic city))]) ∧
    (conn, city) ∈ (ServerA.subscribeCity sA conn city net now).1.inRoom ∧
    (ServerA.subscribeCity sA conn city net now).2 =
      [(Target.toConn conn, Event.temperatureUpdate (degradedPayload city now))] := by
  refine ⟨?_, ?_, ?_⟩
  · simp [ServerB.subscribeCity, hB]
  · simp [ServerA.subscribeCity, ServerA.fetchWeatherData, hA]
  · simp [ServerA.subscribeCity, ServerA.fetchWeatherData, hA]

/-- Witness for `C4_unknown_topic_behavior` at city "Paris". -/
theorem C4_unknown_topic_behavior_witness :
    ServerB.subscribeCity ServerB.initialState 1 "Paris" (some recA) "09:00:00" =
      (ServerB.initialState,
       [(Target.toConn 1, Event.errorEvent (ErrorKind.unknownTopic "Paris"))]) ∧
    (1, "Paris") ∈ (ServerA.subscribeCity ⟨[], []⟩ 1 "Paris" (some recA) "09:00:00").1.inRoom ∧
    (ServerA.subscribeCity ⟨[], []⟩ 1 "Paris" (some recA) "09:00:00").2 =
      [(Target.toConn 1, Event.temperatureUpdate (degradedPayload "Paris" "09:00:00"))] :=
  C4_unknown_topic_behavior ServerB.initialState ⟨[], []⟩ 1 "Paris" (some recA) "09:00:00"
    (by decide) (by decide)

/-- Any single registry request preserves "at most 3 registered cities":
every error path of `add_city` leaves the state unchanged, the success path
requires the count to be below 3 before inserting one entry, and
`delete_city` never grows the registry. -/
theorem applyRegOp_length_le (s : ServerB.State) (op : ServerB.RegOp)
    (h : s.cityCoordinates.length ≤ 3) :
    (ServerB.applyRegOp s op).1.cityCoordinates.length ≤ 3 := by
  cases op with
  | add conn name geo =>
    simp only [ServerB.applyRegOp, ServerB.addCity]
    split
    · exact h
    · split
      · exact h
      · split
        · exact h
        · split
          · exact h
          · split
            · exact h
            · have hcap : ¬ 3 ≤ (keysOf s.cityCoordinates).length := by assumption
              simp only [keysOf, List.length_map, not_le] at hcap
              show (setKey s.cityCoordinates _ _).length ≤ 3
              exact le_trans (length_setKey_le _ _ _) (by omega)
  | remove conn name =>
    simp only [ServerB.applyRegOp, ServerB.deleteCity]
    split
    · exact h
    · exact le_trans (length_eraseKey_le _ _) h

/-- Registry capacity is preserved across any sequence of requests. -/
theorem applyRegOps_length_le (s : ServerB.State) (ops : List ServerB.RegOp)
    (h : s.cityCoordinates.length ≤ 3) :
    (ServerB.applyRegOps s ops).cityCoordinates.length ≤ 3 := by
  induction ops generalizing s with
  | nil => exact h
  | cons op rest ih =>
    simp only [ServerB.applyRegOps, List.foldl_cons]
    exact ih _ (applyRegOp_length_le s op h)

/-- C5: for every sequence of add/delete requests starting from a state
within capacity, the registry never exceeds 3 entries; and an add request
(with a well-formed, non-blank name) issued when the count is already at the
maximum fails with the capacity error and leaves the state — registry,
cache, rooms and topics list — completely unchanged. -/
theorem C5_capacity_invariant
    (s : ServerB.State) (ops : List ServerB.RegOp) (conn : ConnId) (name : String)
    (geo : Option GeoResult)
    (hs : s.cityCoordinates.length ≤ 3) (hname : jsTrim name ≠ "") :
    (ServerB.applyRegOps s ops).cityCoordinates.length ≤ 3 ∧
    (3 ≤ s.cityCoordinates.length →
      ServerB.addCity s conn name geo =
        (s, [(Target.toConn conn, Event.errorEvent ErrorKind.capacityExceeded)])) := by
  refine ⟨applyRegOps_length_le s ops hs, fun hcap => ?_⟩
  have hcap2 : 3 ≤ (keysOf s.cityCoordinates).length := by
    simpa [keysOf] using hcap
  simp [ServerB.addCity, hname, hcap2]

/-- Witness for `C5_capacity_invariant`: three cities registered, a fourth
add (name "Paris") is rejected with the capacity error and no state change. -/
theorem C5_capacity_invariant_witness :
    (ServerB.applyRegOps ⟨ServerA.cityCoordinates, [], []⟩
        [ServerB.RegOp.add 1 "Paris" (some ⟨"Paris", 48, 2, "France", ""⟩),
         ServerB.RegOp.remove 1 "Tokyo",
         ServerB.RegOp.add 1 "Paris" (some ⟨"Paris", 48, 2, "France", ""⟩)]).cityCoordinates.length
      ≤ 3 ∧
    (3 ≤ (⟨ServerA.cityCoordinates, [], []⟩ : ServerB.State).cityCoordinates.length →
      ServerB.addCity ⟨ServerA.cityCoordinates, [], []⟩ 1 "Paris"
          (some ⟨"Paris", 48, 2, "France", ""⟩) =
        (⟨ServerA.cityCoordinates, [], []⟩,
         [(Target.toConn 1, Event.errorEvent ErrorKind.capacityExceeded)])) :=
  C5_capacity_invariant ⟨ServerA.cityCoordinates, [], []⟩
    [ServerB.RegOp.add 1 "Paris" (some ⟨"Paris", 48, 2, "France", ""⟩),
     ServerB.RegOp.remove 1 "Tokyo",
     ServerB.RegOp.add 1 "Paris" (some ⟨"Paris", 48, 2, "France", ""⟩)]
    1 "Paris" (some ⟨"Paris", 48, 2, "France", ""⟩) (by decide) (by decide)

/-- The three-city registry of `server.js` as a dynamic-revision state. -/
def threeCityState : ServerB.State := ⟨ServerA.cityCoordinates, [], []⟩

/-- A one-city registry holding only London. -/
def oneCityState : ServerB.State := ⟨[("London", coordsLondon)], [], []⟩

/-- C6, counterexample. With the registry at its maximum (3 cities, London
among them), adding "london" — whose trimmed name is case-insensitively
equal to the existing "London" — fails with the CAPACITY error, not the
duplicate error: the capacity check precedes the duplicate check, so the
claim's "for every registry state ... fails with DuplicateTopic" is false. -/
theorem C6_counterexample :
    jsToLower (jsTrim "london") = jsToLower "London" ∧
    "London" ∈ keysOf threeCityState.cityCoordinates ∧
    ServerB.addCity threeCityState 1 "london" none =
      (threeCityState, [(Target.toConn 1, Event.errorEvent ErrorKind.capacityExceeded)]) := by
  decide

/-- C6, amended: when the registry is BELOW capacity, (1) adding a topic
whose trimmed name is case-insensitively equal to an existing key fails with
the duplicate error naming that key and changes nothing; (2) when the
case-insensitive check passes and the adapter's canonical name is already a
registry key (the code re-checks by exact property lookup), the add fails
with the duplicate error naming the canonical name and changes nothing. At
capacity, the capacity error takes precedence. -/
theorem C6_duplicate_checks
    (s : ServerB.State) (conn : ConnId) (name : String) (geo : Option GeoResult)
    (g : GeoResult) (existing : String)
    (hname : jsTrim name ≠ "")
    (hcap : s.cityCoordinates.length < 3) :
    ((keysOf s.cityCoordinates).find? (fun c => jsToLower c == jsToLower (jsTrim name))
        = some existing →
      ServerB.addCity s conn name geo =
        (s, [(Target.toConn conn, Event.errorEvent (ErrorKind.duplicateTopic existing))])) ∧
    ((keysOf s.cityCoordinates).find? (fun c => jsToLower c == jsToLower (jsTrim name)) = none →
      (lookupKey s.cityCoordinates g.name).isSome = true →
      ServerB.addCity s conn name (some g) =
        (s, [(Target.toConn conn, Event.geocoding (jsTrim name)),
             (Target.toConn conn, Event.errorEvent (ErrorKind.duplicateTopic g.name))])) := by
  have hcap2 : ¬ 3 ≤ (keysOf s.cityCoordinates).length := by
    simp only [keysOf, List.length_map, not_le]
    exact hcap
  constructor
  · intro hfind
    simp [ServerB.addCity, hname, hcap2, hfind]
  · intro hfind hdup
    simp [ServerB.addCity, hname, hcap2, hfind, hdup]

/-- Witness for `C6_duplicate_checks`: with only London registered,
" london " is rejected as a case-insensitive duplicate of "London", and an
input "NYC" whose canonical geocoded name is "London" is rejected by the
exact re-check. -/
theorem C6_duplicate_checks_witness :
    ServerB.addCity oneCityState 1 " london " none =
      (oneCityState,
       [(Target.toConn 1, Event.errorEvent (ErrorKind.duplicateTopic "London"))]) ∧
    ServerB.addCity oneCityState 1 "NYC" (some ⟨"London", 51, 0, "United Kingdom", ""⟩) =
      (oneCityState,
       [(Target.toConn 1, Event.geocoding "NYC"),
        (Target.toConn 1, Event.errorEvent (ErrorKind.duplicateTopic "London"))]) :=
  ⟨(C6_duplicate_checks oneCityState 1 " london " none ⟨"London", 51, 0, "United Kingdom", ""⟩
      "London" (by decide) (by decide)).1 (by decide),
   (C6_duplicate_checks oneCityState 1 "NYC" none ⟨"London", 51, 0, "United Kingdom", ""⟩
      "London" (by decide) (by decide)).2 (by decide) (by decide)⟩

/-- `subscribe_city` never touches the registry. -/
theorem subscribeCity_cityCoordinates (s : ServerB.State) (conn : ConnId) (city : String)
    (net : Option WeatherRecord) (now : String) :
    (ServerB.subscribeCity s conn city net now).1.cityCoordinates = s.cityCoordinates := by
  unfold ServerB.subscribeCity
  split
  · rfl
  · dsimp only
    split <;> rfl

/-- On a registered, non-empty city name, `subscribe_city` replaces the
socket's room memberships with exactly the new city's room, whatever the
fetch outcome. -/
theorem subscribeCity_success_inRoom (s : ServerB.State) (conn : ConnId) (city : String)
    (net : Option WeatherRecord) (now : String)
    (h1 : city ≠ "") (h2 : (lookupKey s.cityCoordinates city).isSome = true) :
    (ServerB.subscribeCity s conn city net now).1.inRoom =
      (s.inRoom.filter (fun p => p.1 != conn)) ++ [(conn, city)] := by
  obtain ⟨c, hc⟩ := Option.isSome_iff_exists.mp h2
  have hcond : (city == "" || (lookupKey s.cityCoordinates city).isNone) = false := by
    simp [h1, hc]
  unfold ServerB.subscribeCity
  rw [hcond]
  simp only [Bool.false_eq_true, if_false]
  split <;> rfl

/-- C7: after subscribing to topic A and then topic B, the connection is in
B's subscriber set and in no other topic's subscriber set; re-subscribing to
the current topic leaves room membership (hence every subscriber set)
unchanged. -/
theorem C7_exclusive_subscription
    (s : ServerB.State) (conn : ConnId) (a b : String)
    (n1 n2 n3 : Option WeatherRecord) (t1 t2 t3 : String)
    (ha1 : a ≠ "") (ha2 : (lookupKey s.cityCoordinates a).isSome = true)
    (hb1 : b ≠ "") (hb2 : (lookupKey s.cityCoordinates b).isSome = true) :
    conn ∈ roomMembers
      (ServerB.subscribeCity (ServerB.subscribeCity s conn a n1 t1).1 conn b n2 t2).1.inRoom b ∧
    (∀ t, t ≠ b → conn ∉ roomMembers
      (ServerB.subscribeCity (ServerB.subscribeCity s conn a n1 t1).1 conn b n2 t2).1.inRoom t) ∧
    (ServerB.subscribeCity
        (ServerB.subscribeCity (ServerB.subscribeCity s conn a n1 t1).1 conn b n2 t2).1
        conn b n3 t3).1.inRoom =
      (ServerB.subscribeCity (ServerB.subscribeCity s conn a n1 t1).1 conn b n2 t2).1.inRoom := by
  have hcoords1 : (ServerB.subscribeCity s conn a n1 t1).1.cityCoordinates = s.cityCoordinates :=
    subscribeCity_cityCoordinates s conn a n1 t1
  have hb2a : (lookupKey (ServerB.subscribeCity s conn a n1 t1).1.cityCoordinates b).isSome
      = true := by rw [hcoords1]; exact hb2
  have hroom2 :
      (ServerB.subscribeCity (ServerB.subscribeCity s conn a n1 t1).1 conn b n2 t2).1.inRoom =
        ((ServerB.subscribeCity s conn a n1 t1).1.inRoom.filter (fun p => p.1 != conn))
          ++ [(conn, b)] :=
    subscribeCity_success_inRoom (ServerB.subscribeCity s conn a n1 t1).1 conn b n2 t2 hb1 hb2a
  have hcoords2 :
      (ServerB.subscribeCity (ServerB.subscribeCity s conn a n1 t1).1 conn b n2 t2).1.cityCoordinates
        = s.cityCoordinates := by
    rw [subscribeCity_cityCoordinates, hcoords1]
  refine ⟨?_, ?_, ?_⟩
  · rw [hroom2]
    exact mem_roomMembers.mpr (by simp)
  · intro t ht hmem
    have hpair := mem_roomMembers.mp hmem
    rw [hroom2] at hpair
    rcases List.mem_append.mp hpair with hL | hR
    · have := (List.mem_filter.mp hL).2
      simp at this
    · simp at hR
      exact ht hR
  · have hb2b : (lookupKey
        (ServerB.subscribeCity (ServerB.subscribeCity s conn a n1 t1).1 conn b n2 t2).1.cityCoordinates
        b).isSome = true := by rw [hcoords2]; exact hb2
    rw [subscribeCity_success_inRoom _ conn b n3 t3 hb1 hb2b, hroom2, List.filter_append,
      filter_idem]
    simp

/-- Witness for `C7_exclusive_subscription`: connection 1 subscribes to
London then Tokyo in the three-city registry. -/
theorem C7_exclusive_subscription_witness :
    1 ∈ roomMembers
      (ServerB.subscribeCity (ServerB.subscribeCity threeCityState 1 "London" none "t1").1
        1 "Tokyo" none "t2").1.inRoom "Tokyo" ∧
    (∀ t, t ≠ "Tokyo" → 1 ∉ roomMembers
      (ServerB.subscribeCity (ServerB.subscribeCity threeCityState 1 "London" none "t1").1
        1 "Tokyo" none "t2").1.inRoom t) ∧
    (ServerB.subscribeCity
        (ServerB.subscribeCity (ServerB.subscribeCity threeCityState 1 "London" none "t1").1
          1 "Tokyo" none "t2").1
        1 "Tokyo" none "t3").1.inRoom =
      (ServerB.subscribeCity (ServerB.subscribeCity threeCityState 1 "London" none "t1").1
        1 "Tokyo" none "t2").1.inRoom :=
  C7_exclusive_subscription threeCityState 1 "London" "Tokyo" none none none "t1" "t2" "t3"
    (by decide) (by decide) (by decide) (by decide)

/-- C8: subscribing to a registered topic never fails as a whole: exactly
one `temperature_update` is sent to the requesting connection, its `temp`
field is always defined (numeric from the fetched record on success, the
explicit `'N/A'` marker on fetch failure), and in both cases the connection
ends up in the topic's subscriber set. -/
theorem C8_subscribe_never_fails
    (s : ServerB.State) (conn : ConnId) (city : String)
    (net : Option WeatherRecord) (now : String)
    (h1 : city ≠ "") (h2 : (lookupKey s.cityCoordinates city).isSome = true) :
    ∃ p : UpdatePayload,
      (ServerB.subscribeCity s conn city net now).2 =
        [(Target.toConn conn, Event.temperatureUpdate p)] ∧
      p.temp.isSome = true ∧
      (conn, city) ∈ (ServerB.subscribeCity s conn city net now).1.inRoom ∧
      (∀ r, net = some r → p = payloadOfRecord r) ∧
      (net = none → p = degradedPayload city now) := by
  obtain ⟨c, hc⟩ := Option.isSome_iff_exists.mp h2
  have hmem : (conn, city) ∈ (ServerB.subscribeCity s conn city net now).1.inRoom := by
    rw [subscribeCity_success_inRoom s conn city net now h1 h2]
    simp
  cases net with
  | some r =>
    refine ⟨payloadOfRecord r, ?_, rfl, hmem, ?_, ?_⟩
    · simp [ServerB.subscribeCity, ServerB.fetchWeatherData, hc, h1]
    · intro r2 hr2
      cases hr2
      rfl
    · intro hnone
      cases hnone
  | none =>
    refine ⟨degradedPayload city now, ?_, rfl, hmem, ?_, fun _ => rfl⟩
    · simp [ServerB.subscribeCity, ServerB.fetchWeatherData, hc, h1]
    · intro r2 hr2
      cases hr2

/-- Witness for `C8_subscribe_never_fails` on both fetch outcomes would need
two inputs; the fetch-failure case is exercised (net = none), where the
degraded payload still has a defined temp and the subscription succeeds. -/
theorem C8_subscribe_never_fails_witness :
    ∃ p : UpdatePayload,
      (ServerB.subscribeCity threeCityState 1 "London" none "09:00:00").2 =
        [(Target.toConn 1, Event.temperatureUpdate p)] ∧
      p.temp.isSome = true ∧
      (1, "London") ∈ (ServerB.subscribeCity threeCityState 1 "London" none "09:00:00").1.inRoom ∧
      (∀ r, (none : Option WeatherRecord) = some r → p = payloadOfRecord r) ∧
      ((none : Option WeatherRecord) = none → p = degradedPayload "London" "09:00:00") :=
  C8_subscribe_never_fails threeCityState 1 "London" none "09:00:00" (by decide) (by decide)

/-- Closed form of the change-gated `updateCityWeather` for a registered
city on fetch success: overwrite-and-emit iff `hasWeatherChanged`. -/
theorem updateCityWeatherA_eq (s : ServerA.State) (city : String) (r : WeatherRecord)
    (h : (lookupKey ServerA.cityCoordinates city).isSome = true) :
    ServerA.updateCityWeather s city (some r) =
      if hasWeatherChanged (lookupKey s.weatherData city) r then
        ({ s with weatherData := setKey s.weatherData city r },
         [(Target.toRoom city, Event.temperatureUpdate (payloadOfRecord r))])
      else (s, []) := by
  obtain ⟨c, hc⟩ := Option.isSome_iff_exists.mp h
  simp only [ServerA.updateCityWeather, ServerA.fetchWeatherData, hc,
    ServerA.updateCityWeatherResume]

/-- Prior record for the C9/C10 scenarios (differs from `recA`..`recC` in
several compared fields). -/
def recOld : WeatherRecord := ⟨"London", 18, 17, 0, 5, 90, 60, 2, "09:55:00"⟩

/-- Same seven compared fields as `recC`, later timestamp. -/
def recD : WeatherRecord := ⟨"London", 21, 19, 0, 10, 180, 50, 3, "10:15:00"⟩

/-- C9: under the change-gated policy with a prior snapshot, two
consecutive successful polls whose records agree on all seven compared
fields emit at most one `temperature_update` between them, and a third poll
whose record differs from them in at least one compared field emits exactly
the update for the new record. -/
theorem C9_change_gated_emissions
    (s : ServerA.State) (city : String) (p r1 r2 r3 : WeatherRecord)
    (hreg : (lookupKey ServerA.cityCoordinates city).isSome = true)
    (hprior : lookupKey s.weatherData city = some p)
    (h12 : sameWeatherFields r1 r2)
    (h23 : ¬ sameWeatherFields r2 r3) :
    ((ServerA.updateCityWeather s city (some r1)).2.length +
      (ServerA.updateCityWeather (ServerA.updateCityWeather s city (some r1)).1 city
        (some r2)).2.length ≤ 1) ∧
    (ServerA.updateCityWeather
        (ServerA.updateCityWeather (ServerA.updateCityWeather s city (some r1)).1 city
          (some r2)).1
        city (some r3)).2 =
      [(Target.toRoom city, Event.temperatureUpdate (payloadOfRecord r3))] := by
  rw [updateCityWeatherA_eq s city r1 hreg]
  by_cases hch1 : hasWeatherChanged (lookupKey s.weatherData city) r1 = true
  · rw [if_pos hch1]
    have hcache1 : lookupKey (setKey s.weatherData city r1) city = some r1 :=
      lookupKey_setKey_self s.weatherData city r1
    have hch2 : hasWeatherChanged (some r1) r2 = false :=
      (hasWeatherChanged_eq_false_iff r1 r2).mpr h12
    rw [updateCityWeatherA_eq _ city r2 hreg]
    simp only [hcache1, hch2, Bool.false_eq_true, if_false]
    have hch3 : hasWeatherChanged (some r1) r3 = true := by
      rcases Bool.eq_false_or_eq_true (hasWeatherChanged (some r1) r3) with ht | hf
      · exact ht
      · exact absurd (sameWeatherFields_trans (sameWeatherFields_symm h12)
          ((hasWeatherChanged_eq_false_iff r1 r3).mp hf)) h23
    rw [updateCityWeatherA_eq _ city r3 hreg]
    simp only [hcache1, hch3, if_true]
    simp
  · have hch1f : hasWeatherChanged (lookupKey s.weatherData city) r1 = false := by
      simpa using hch1
    rw [if_neg (by simp [hch1f])]
    have hp1 : sameWeatherFields p r1 := by
      rw [hprior] at hch1f
      exact (hasWeatherChanged_eq_false_iff p r1).mp hch1f
    have hch2 : hasWeatherChanged (lookupKey s.weatherData city) r2 = false := by
      rw [hprior]
      exact (hasWeatherChanged_eq_false_iff p r2).mpr (sameWeatherFields_trans hp1 h12)
    rw [updateCityWeatherA_eq s city r2 hreg]
    simp only [hch2, Bool.false_eq_true, if_false]
    have hch3 : hasWeatherChanged (lookupKey s.weatherData city) r3 = true := by
      rw [hprior]
      rcases Bool.eq_false_or_eq_true (hasWeatherChanged (some p) r3) with ht | hf
      · exact ht
      · have hp3 : sameWeatherFields p r3 := (hasWeatherChanged_eq_false_iff p r3).mp hf
        have h13 : sameWeatherFields r1 r3 :=
          sameWeatherFields_trans (sameWeatherFields_symm hp1) hp3
        exact absurd (sameWeatherFields_trans (sameWeatherFields_symm h12) h13) h23
    rw [updateCityWeatherA_eq s city r3 hreg]
    simp only [hch3, if_true]
    simp

/-- Witness for `C9_change_gated_emissions`: prior `recOld` cached, polls
fetch `recA`, then `recB` (same compared fields), then `recC` (temp 20→21):
one emission across the first two polls, and the third poll emits `recC`. -/
theorem C9_change_gated_emissions_witness :
    ((ServerA.updateCityWeather ⟨[("London", recOld)], [(1, "London")]⟩ "London"
        (some recA)).2.length +
      (ServerA.updateCityWeather
        (ServerA.updateCityWeather ⟨[("London", recOld)], [(1, "London")]⟩ "London"
          (some recA)).1 "London" (some recB)).2.length ≤ 1) ∧
    (ServerA.updateCityWeather
        (ServerA.updateCityWeather
          (ServerA.updateCityWeather ⟨[("London", recOld)], [(1, "London")]⟩ "London"
            (some recA)).1 "London" (some recB)).1
        "London" (some recC)).2 =
      [(Target.toRoom "London", Event.temperatureUpdate (payloadOfRecord recC))] :=
  C9_change_gated_emissions ⟨[("London", recOld)], [(1, "London")]⟩ "London" recOld recA recB recC
    (by decide) (by decide) (by decide) (by decide)

/-- C10 (implicit): in the change-gated revision, the immediate fetch done
by `subscribe_city` overwrites the shared cache with no change comparison
and emits the record only to the subscribing socket (a single `toConn`
emission, none to the room); the next poll then compares its fetch against
the already-updated cache and, when the values are unchanged, emits nothing
— so the topic's other subscribers never see an update for that change. -/
theorem C10_subscribe_fetch_bypasses_gate
    (s : ServerA.State) (conn : ConnId) (city : String) (old r r2 : WeatherRecord)
    (now : String)
    (hreg : (lookupKey ServerA.cityCoordinates city).isSome = true)
    (hold : lookupKey s.weatherData city = some old)
    (hchanged : ¬ sameWeatherFields old r)
    (hsame : sameWeatherFields r r2) :
    (ServerA.subscribeCity s conn city (some r) now).2 =
      [(Target.toConn conn, Event.temperatureUpdate (payloadOfRecord r))] ∧
    lookupKey (ServerA.subscribeCity s conn city (some r) now).1.weatherData city = some r ∧
    (ServerA.updateCityWeather (ServerA.subscribeCity s conn city (some r) now).1 city
        (some r2)).2 = [] := by
  obtain ⟨c, hc⟩ := Option.isSome_iff_exists.mp hreg
  have hsub2 : (ServerA.subscribeCity s conn city (some r) now).2 =
      [(Target.toConn conn, Event.temperatureUpdate (payloadOfRecord r))] := by
    simp [ServerA.subscribeCity, ServerA.fetchWeatherData, hc]
  have hsub1 : lookupKey (ServerA.subscribeCity s conn city (some r) now).1.weatherData city
      = some r := by
    simp [ServerA.subscribeCity, ServerA.fetchWeatherData, hc, lookupKey_setKey_self]
  refine ⟨hsub2, hsub1, ?_⟩
  rw [updateCityWeatherA_eq _ city r2 hreg, hsub1]
  simp [(hasWeatherChanged_eq_false_iff r r2).mpr hsame]

/-- Witness for `C10_subscribe_fetch_bypasses_gate`: `recOld` cached,
connection 2 already in the London room, connection 1 subscribes while the
fetch returns `recC`; the poll then fetches `recD` (same compared fields as
`recC`) and emits nothing. -/
theorem C10_subscribe_fetch_bypasses_gate_witness :
    (ServerA.subscribeCity ⟨[("London", recOld)], [(2, "London")]⟩ 1 "London" (some recC)
        "10:10:00").2 =
      [(Target.toConn 1, Event.temperatureUpdate (payloadOfRecord recC))] ∧
    lookupKey (ServerA.subscribeCity ⟨[("London", recOld)], [(2, "London")]⟩ 1 "London"
        (some recC) "10:10:00").1.weatherData "London" = some recC ∧
    (ServerA.updateCityWeather
        (ServerA.subscribeCity ⟨[("London", recOld)], [(2, "London")]⟩ 1 "London" (some recC)
          "10:10:00").1
        "London" (some recD)).2 = [] :=
  C10_subscribe_fetch_bypasses_gate ⟨[("London", recOld)], [(2, "London")]⟩ 1 "London"
    recOld recC recD "10:10:00" (by decide) (by decide) (by decide) (by decide)
